import Mathlib

/-!
Shallow embedding of the redmed client (github.com/atye/redmed), a Go library
that submits image, video and gallery posts to reddit.  The repository ships
several snapshots of the same package:

* `src/redmed.go` (first document, "monolithic" variant): the whole client in
  one file — `PostImage`, `PostVideo`, `PostGallery`, `uploadMedia`,
  `waitForPostSuccess`, `setToken`, `doRequest`.
* `src/unnamed/part_000` ("method" variant): the refactored `reddit` type with
  `UploadAsset`, `SubmitPost`, `SetToken`, a `waitForPostSuccess` method and an
  empty-`Location` check in `UploadAsset`.
* `src/unnamed/part_001`: an intermediate refactor (no empty-`Location` check,
  free-function `waitForPostSuccess`).

Network and filesystem effects are modelled by explicit oracles (the observable
outcome of each collaborator call) plus an event trace recording which external
calls the code performs.  Strings are split with an executable re-implementation
of Go's `strings.Split` for a one-character separator, so every definition
evaluates on concrete inputs.
-/

namespace Redmed

/-- Go `strings.Split` with a one-character separator, on the character list:
splitting the empty list yields `[[]]`, matching `strings.Split("", "/") = [""]`. -/
def splitOnChar (sep : Char) : List Char → List (List Char)
  | [] => [[]]
  | c :: cs =>
    if c = sep then [] :: splitOnChar sep cs
    else
      match splitOnChar sep cs with
      | [] => [[c]]
      | h :: t => (c :: h) :: t

/-- Go `strings.Split(s, sep)` for a one-character separator. -/
def goSplit (s : String) (sep : Char) : List String :=
  (splitOnChar sep s.data).map (fun l => String.mk l)

/-- Models Go `path/filepath.Base` for slash-separated paths: the last
non-empty slash-separated component; `"."` for the empty path, `"/"` when the
path consists only of slashes. -/
def filepathBase (path : String) : String :=
  match ((splitOnChar '/' path.data).filter (fun l => l ≠ [])).getLast? with
  | some l => String.mk l
  | none => if path = "" then "." else "/"

/-- Models Go `path/filepath.Ext` on a file name without separators: the suffix
beginning at the final dot, empty when the name has no dot. -/
def filepathExt (name : String) : String :=
  match splitOnChar '.' name.data with
  | [] => ""
  | [_] => ""
  | parts => "." ++ String.mk (parts.getLastD [])

/-- The `mimeTypes` map (src/redmed.go:29-37, src/unnamed/part_000:25-32):
supported source file extensions and their declared content types. -/
def mimeTypes : String → Option String
  | ".png" => some "image/png"
  | ".mov" => some "video/quicktime"
  | ".mp4" => some "video/mp4"
  | ".jpg" => some "image/jpeg"
  | ".jpeg" => some "image/jpeg"
  | ".gif" => some "image/gif"
  | _ => none

/-- Models `isValidURL` (src/redmed.go:632-644), which accepts a string exactly
when `net/url` parses it with a non-empty scheme and a non-empty host: a
non-empty scheme of URL-scheme characters, then `://`, then a non-empty host
segment. -/
def isValidURL (s : String) : Bool :=
  let cs := s.data
  let scheme := cs.takeWhile (fun c => c ≠ ':')
  match cs.dropWhile (fun c => c ≠ ':') with
  | ':' :: '/' :: '/' :: hostRest =>
    decide (scheme ≠ []) &&
      scheme.all (fun c => c.isAlpha || c.isDigit || c = '+' || c = '-' || c = '.') &&
      decide (hostRest.takeWhile (fun c => c ≠ '/') ≠ [])
  | _ => false

/-- Error taxonomy of the client.  `wrap c e` models
`fmt.Errorf(c ++ ": %w", e)`. -/
inductive Err where
  | unsupportedMedia (ext : String)
  | download (msg : String)
  | transport (msg : String)
  | httpStatus (status : Nat) (body : String)
  | decode (msg : String)
  | noToken
  | emptyLocation (body : String)
  | fileOpen (path : String)
  | dialFail (msg : String)
  | readFail (msg : String)
  | completionFailed (msgType redirect : String)
  | cancelled
  | badKind
  | noThumbnail
  | wrap (ctx : String) (e : Err)
deriving DecidableEq, Repr

/-- Observable external calls made by the client: network requests, the
completion-channel connection, and local staged-file removal. -/
inductive Event where
  | tokenRequest
  | download (url : String)
  | leaseRequest (filepath mimetype : String)
  | binaryUpload (url : String)
  | submitPost
  | submitGallery
  | wsDial (url : String)
  | wsClose
  | removeFile (path : String)
deriving DecidableEq, Repr

/-- An HTTP response as observed by the client: status code and raw body. -/
structure HttpResp where
  status : Nat
  body : String
deriving DecidableEq, Repr

/-- Models `doRequest` (src/redmed.go:597-630, src/unnamed/part_000:288-321)
applied to the outcome of `client.Do`: a transport failure propagates, and any
status other than 200 or 201 is an error carrying the response body. -/
def doRequest (resp : Except String HttpResp) : Except Err HttpResp :=
  match resp with
  | .error m => .error (.transport m)
  | .ok r =>
    if r.status = 200 ∨ r.status = 201 then .ok r
    else .error (.httpStatus r.status r.body)

/-- A decoded completion-channel message `{type, payload.redirect}`
(`wsResponse`, src/unnamed/part_000:353-358). -/
structure WsMsg where
  type : String
  redirect : String
deriving DecidableEq, Repr

/-- Message classification in the listener of the free function
`waitForPostSuccess` (src/redmed.go:441-446, src/unnamed/part_001:394-399):
a `"failed"` type or an empty redirect is a terminal failure, any other
message is terminal success carrying the redirect. -/
def classifyTypeFailed (m : WsMsg) : Except Err String :=
  if m.type = "failed" ∨ m.redirect = "" then
    .error (.wrap "waiting for media upload success" (.completionFailed m.type m.redirect))
  else .ok m.redirect

/-- Message classification in the `reddit.waitForPostSuccess` method
(src/unnamed/part_000:399-404): any type other than `"success"`, or an empty
redirect, is a terminal failure; only `"success"` with a non-empty redirect is
terminal success. -/
def classifyTypeNotSuccess (m : WsMsg) : Except Err String :=
  if ¬ m.type = "success" ∨ m.redirect = "" then
    .error (.wrap "waiting for media upload success" (.completionFailed m.type m.redirect))
  else .ok m.redirect

/-- The one observation the listener goroutine delivers (it sends exactly one
value on the unbuffered channel and returns): a read failure, a JSON decode
failure, or a decoded message. -/
inductive WsRead where
  | readError (msg : String)
  | decodeError (msg : String)
  | message (m : WsMsg)
deriving DecidableEq, Repr

/-- Which branch of the caller's `select` fires, and with what: the context's
`Done` channel; the listener's message channel delivering its one sent value;
or the message channel found CLOSED without a send — the listener observed the
cancelled context at the top of its loop (src/redmed.go:418-420), returned
without sending, and its `defer close(msgCh)` closed the channel, so the
receive case of the `select` is ready and yields the zero `msg` value. -/
inductive WaitBranch where
  | ctxDone
  | listener (r : WsRead)
  | channelClosed
deriving DecidableEq, Repr

/-- Models `waitForPostSuccess` (src/redmed.go:397-459,
src/unnamed/part_000:360-417, src/unnamed/part_001:350-412), parameterised by
the listener's message classification (the two snapshots differ there).  An
empty completion-channel address returns `("", nil)` with no connection.
Otherwise the connection is dialled; on dial failure the function returns
before the deferred close.  The deferred `ws.Close()` runs on every later exit
path, including both cancellation-time branches of the `select`.  On the
`channelClosed` branch the received zero `msg` value has `err = nil` and
`value = ""`, so the caller returns `("", nil)` (src/redmed.go:453-457). -/
def waitCore (classify : WsMsg → Except Err String) (url : String)
    (dial : Except String Unit) (branch : WaitBranch) :
    Except Err String × List Event :=
  if url = "" then (.ok "", [])
  else
    match dial with
    | .error m => (.error (.wrap "dialing websocket connection" (.dialFail m)), [.wsDial url])
    | .ok _ =>
      match branch with
      | .ctxDone => (.error .cancelled, [.wsDial url, .wsClose])
      | .listener (.readError m) =>
        (.error (.wrap "reading websocket message" (.readFail m)), [.wsDial url, .wsClose])
      | .listener (.decodeError m) =>
        (.error (.wrap "unmarshalling websocket message" (.decode m)), [.wsDial url, .wsClose])
      | .listener (.message m) => (classify m, [.wsDial url, .wsClose])
      | .channelClosed => (.ok "", [.wsDial url, .wsClose])

/-- The free-function waiter of src/redmed.go and src/unnamed/part_001. -/
def waitForPostSuccess : String → Except String Unit → WaitBranch →
    Except Err String × List Event :=
  waitCore classifyTypeFailed

/-- The `reddit.waitForPostSuccess` method of src/unnamed/part_000. -/
def waitForPostSuccessMethod : String → Except String Unit → WaitBranch →
    Except Err String × List Event :=
  waitCore classifyTypeNotSuccess

/-- Identifier derivation of the monolithic `PostImage`/`PostVideo`
(src/redmed.go:186-188, 287-289): `fmt.Sprintf("t3%s", split[len(split)-3])`
after `strings.Split(redirect, "/")`.  `none` models the panic of the index
expression when the split has fewer than three components. -/
def postNameMonolithic (redirect : String) : Option String :=
  if h : 3 ≤ (goSplit redirect '/').length then
    some ("t3" ++ (goSplit redirect '/').get ⟨(goSplit redirect '/').length - 3, by omega⟩)
  else none

/-- Identifier derivation of `reddit.SubmitPost` (src/unnamed/part_000:214-216,
src/unnamed/part_001:211-213): `fmt.Sprintf("t3_%s", split[len(split)-3])`.
`none` models the panic of the out-of-bounds index. -/
def postNameSubmitPost (redirect : String) : Option String :=
  if h : 3 ≤ (goSplit redirect '/').length then
    some ("t3_" ++ (goSplit redirect '/').get ⟨(goSplit redirect '/').length - 3, by omega⟩)
  else none

/-- The `asset` value produced by an upload (src/unnamed/part_000:66-70):
opaque id, storage location URL, optional completion-channel address. -/
structure Asset where
  id : String
  location : String
  websocketURL : String
deriving DecidableEq, Repr

/-- A decoded `assetLeaseResponse` (src/unnamed/part_000:72-84): the
scheme-relative upload target, the opaque form fields to echo, the asset id
and the completion-channel address. -/
structure Lease where
  action : String
  fields : List (String × String)
  assetID : String
  websocketURL : String
deriving DecidableEq, Repr

deriving instance DecidableEq for Except

/-- Oracles for one asset upload: the observable outcome of each collaborator
call (remote download, lease POST and its JSON decode, `os.Open`, binary upload
POST, XML decode of the storage response). -/
structure UploadEnv where
  download : Except String String
  leaseResp : Except String HttpResp
  leaseDecode : Except String Lease
  openOk : Bool
  uploadResp : Except String HttpResp
  xmlDecode : Except String String
deriving DecidableEq, Repr

/-- The shared tail of `uploadMedia`/`UploadAsset` after the extension check:
lease negotiation, multipart build, binary upload, XML `Location` decode.
`checkLoc := true` is the src/unnamed/part_000 variant, which rejects an empty
`Location` (lines 186-188); `checkLoc := false` is src/redmed.go:549-564 /
src/unnamed/part_001:172-192, which return whatever `Location` decoded, empty
included.  The trace is relative to the position after the lease request. -/
def uploadAfterLease (checkLoc : Bool) (env : UploadEnv) (path : String) :
    Except Err Asset × List Event :=
  match doRequest env.leaseResp with
  | .error e => (.error e, [])
  | .ok _ =>
    match env.leaseDecode with
    | .error m => (.error (.decode m), [])
    | .ok lease =>
      if env.openOk then
        match doRequest env.uploadResp with
        | .error e => (.error e, [.binaryUpload ("https:" ++ lease.action)])
        | .ok uresp =>
          match env.xmlDecode with
          | .error m => (.error (.decode m), [.binaryUpload ("https:" ++ lease.action)])
          | .ok location =>
            if checkLoc ∧ location = "" then
              (.error (.wrap "uploading asset to lease" (.emptyLocation uresp.body)),
                [.binaryUpload ("https:" ++ lease.action)])
            else
              (.ok ⟨lease.assetID, location, lease.websocketURL⟩,
                [.binaryUpload ("https:" ++ lease.action)])
      else (.error (.fileOpen path), [])

/-- Models `uploadMedia` (src/redmed.go:461-565): extension check first (before
any network call), then lease negotiation and binary transfer; the decoded
`Location` is returned without an emptiness check. -/
def uploadMedia (env : UploadEnv) (path : String) : Except Err Asset × List Event :=
  match mimeTypes (filepathExt (filepathBase path)) with
  | none => (.error (.unsupportedMedia (filepathExt (filepathBase path))), [])
  | some mimeType =>
    ((uploadAfterLease false env path).1,
      .leaseRequest (filepathBase path) mimeType :: (uploadAfterLease false env path).2)

/-- The part of `reddit.UploadAsset` (src/unnamed/part_000:103-195) after the
staging step: extension check, lease negotiation, binary transfer, and the
empty-`Location` rejection. -/
def uploadAssetBody (env : UploadEnv) (path : String) : Except Err Asset × List Event :=
  match mimeTypes (filepathExt (filepathBase path)) with
  | none => (.error (.unsupportedMedia (filepathExt (filepathBase path))), [])
  | some mimeType =>
    ((uploadAfterLease true env path).1,
      .leaseRequest (filepathBase path) mimeType :: (uploadAfterLease true env path).2)

/-- Models `reddit.UploadAsset` (src/unnamed/part_000:86-195): a source that
parses as a remote URL is downloaded to a staging file BEFORE the extension
check; `defer os.Remove(assetPath)` registered right after a successful
download removes the staged file on every later exit path. -/
def UploadAsset (env : UploadEnv) (path : String) : Except Err Asset × List Event :=
  if isValidURL path then
    match env.download with
    | .error m =>
      (.error (.wrap ("downloading " ++ path) (.download m)), [.download path])
    | .ok tmp =>
      ((uploadAssetBody env path).1,
        .download path :: ((uploadAssetBody env path).2 ++ [.removeFile tmp]))
  else uploadAssetBody env path

/-- Oracles for `setToken`: the outcome of `client.Do` on the token request and
the JSON decode of the response body (the decoded `access_token` field, empty
when absent). -/
structure TokenEnv where
  resp : Except String HttpResp
  decode : String → Except String String

/-- Models `setToken` / `reddit.SetToken` (src/redmed.go:79-116,
src/unnamed/part_000:249-286): POST the password grant, decode the JSON body,
fail when the decoded token is empty, otherwise store it.  The HTTP status of
the response is never inspected. -/
def setToken (env : TokenEnv) : Except Err String :=
  match env.resp with
  | .error m => .error (.transport m)
  | .ok r =>
    match env.decode r.body with
    | .error m => .error (.decode m)
    | .ok tok => if tok = "" then .error .noToken else .ok tok

/-- One item of the gallery submission payload (src/redmed.go:837-848):
caption and outbound url left empty, media id populated. -/
structure GalleryItem where
  caption : String
  outboundUrl : String
  mediaId : String
deriving DecidableEq, Repr

/-- `true` exactly on a successful upload outcome. -/
def isOk : Except Err String → Bool
  | .ok _ => true
  | .error _ => false

/-- The value of a successful upload outcome (`""` on failure). -/
def okVal : Except Err String → String
  | .ok v => v
  | .error _ => ""

/-- One completed unit of the gallery fan-out (src/redmed.go:838-850): upload
index `i`; on success write the item into slot `i` of the pre-sized sequence,
on failure record the error if it is the first one (`errgroup` keeps the first
error). -/
def galleryStep (upload : Nat → Except Err String) :
    List (Option GalleryItem) × Option Err → Nat →
    List (Option GalleryItem) × Option Err :=
  fun st i =>
    match upload i with
    | .error e => (st.1, some (st.2.getD e))
    | .ok assetID => (st.1.set i (some ⟨"", "", assetID⟩), st.2)

/-- The gallery fan-out joined by `eg.Wait()` (src/redmed.go:832-853): the
concurrent units are modelled as completing in an arbitrary `order`; each
writes only its own input-indexed slot of a sequence pre-sized to `n`. -/
def galleryUploads (upload : Nat → Except Err String) (n : Nat) (order : List Nat) :
    List (Option GalleryItem) × Option Err :=
  order.foldl (galleryStep upload) (List.replicate n none, none)

/-- Models `PostGallery` (src/redmed.go:822-889) from the fan-out on: on the
first upload error, return it wrapped and make no submission call (the Bool
records whether the gallery submission request was sent); otherwise submit the
item sequence. -/
def PostGallery (upload : Nat → Except Err String) (n : Nat) (order : List Nat)
    (submit : List GalleryItem → Except Err String) : Except Err String × Bool :=
  match (galleryUploads upload n order).2 with
  | some e => (.error (.wrap "uploading asset" e), false)
  | none =>
    (submit ((galleryUploads upload n order).1.map (fun o => o.getD ⟨"", "", ""⟩)), true)

/-- The monolithic `PostVideoRequest` (src/redmed.go:191-201). -/
structure PostVideoRequest where
  kind : String
  nswf : Bool
  path : String
  resubmit : Bool
  sendReplies : Bool
  spoiler : Bool
  subreddit : String
  thumbnailPath : String
  title : String
deriving DecidableEq, Repr

/-- Oracles for one `PostVideo` call: token exchange, the two remote downloads,
the per-upload oracles, the submission POST, and the completion channel. -/
structure VideoEnv where
  token : Except Err Unit
  mediaDownload : Except String String
  thumbDownload : Except String String
  envM : UploadEnv
  envT : UploadEnv
  submitResp : Except String HttpResp
  dial : Except String Unit
  branch : WaitBranch
deriving DecidableEq, Repr

/-- The tail of the monolithic `PostVideo` (src/redmed.go:248-289) after both
staging steps: upload media, upload thumbnail, POST the submission form, wait
on the completion channel, derive the identifier.  `Except Err (Option String)`
with value `none` models the panic of the derivation's index expression; the
deferred removals still run on that path. -/
def postVideoBody (env : VideoEnv) (req : PostVideoRequest)
    (mediaPath thumbPath : String) : Except Err (Option String) × List Event :=
  match uploadMedia env.envM mediaPath with
  | (.error e, evs) => (.error (.wrap ("uploading " ++ req.path) e), evs)
  | (.ok a, evs) =>
    match uploadMedia env.envT thumbPath with
    | (.error e, evs2) => (.error (.wrap ("uploading " ++ req.thumbnailPath) e), evs ++ evs2)
    | (.ok _, evs2) =>
      match doRequest env.submitResp with
      | .error e =>
        (.error (.wrap "executing submission request" e), evs ++ evs2 ++ [.submitPost])
      | .ok _ =>
        match waitForPostSuccess a.websocketURL env.dial env.branch with
        | (.error e, evs3) =>
          (.error (.wrap "waiting for post success" e), evs ++ evs2 ++ [.submitPost] ++ evs3)
        | (.ok redirect, evs3) =>
          (.ok (postNameMonolithic redirect), evs ++ evs2 ++ [.submitPost] ++ evs3)

/-- The deferred `os.Remove` calls of the monolithic `PostVideo`
(src/redmed.go:240-246), run in LIFO order on return. -/
def postVideoCleanup (tmpM tmpT : Option String) : List Event :=
  (match tmpT with | some t => [Event.removeFile t] | none => []) ++
    (match tmpM with | some t => [Event.removeFile t] | none => [])

/-- Body plus deferred cleanup, with the trace accumulated so far prepended. -/
def postVideoFinish (env : VideoEnv) (req : PostVideoRequest)
    (mediaPath thumbPath : String) (tmpM tmpT : Option String) (pre : List Event) :
    Except Err (Option String) × List Event :=
  ((postVideoBody env req mediaPath thumbPath).1,
    pre ++ (postVideoBody env req mediaPath thumbPath).2 ++ postVideoCleanup tmpM tmpT)

/-- Models the monolithic `PostVideo` (src/redmed.go:203-290).  The media and
thumbnail downloads both happen BEFORE the two `defer os.Remove` statements
(lines 240-246), so a thumbnail download failure at line 235 returns without
removing an already-staged media file.  The error of that branch wraps
`req.Path` (line 235 reuses the media path in its message). -/
def PostVideo (env : VideoEnv) (req : PostVideoRequest) :
    Except Err (Option String) × List Event :=
  if req.kind ≠ "video" ∧ req.kind ≠ "videogif" then (.error .badKind, [])
  else if req.thumbnailPath = "" then (.error .noThumbnail, [])
  else
    match env.token with
    | .error e => (.error (.wrap "setting oauth token" e), [.tokenRequest])
    | .ok _ =>
      if isValidURL req.path then
        match env.mediaDownload with
        | .error m =>
          (.error (.wrap ("downloading " ++ req.path) (.download m)),
            [.tokenRequest, .download req.path])
        | .ok tmpM =>
          if isValidURL req.thumbnailPath then
            match env.thumbDownload with
            | .error m =>
              (.error (.wrap ("downloading " ++ req.path) (.download m)),
                [.tokenRequest, .download req.path, .download req.thumbnailPath])
            | .ok tmpT =>
              postVideoFinish env req tmpM tmpT (some tmpM) (some tmpT)
                [.tokenRequest, .download req.path, .download req.thumbnailPath]
          else
            postVideoFinish env req tmpM req.thumbnailPath (some tmpM) none
              [.tokenRequest, .download req.path]
      else
        if isValidURL req.thumbnailPath then
          match env.thumbDownload with
          | .error m =>
            (.error (.wrap ("downloading " ++ req.path) (.download m)),
              [.tokenRequest, .download req.thumbnailPath])
          | .ok tmpT =>
            postVideoFinish env req req.path tmpT none (some tmpT)
              [.tokenRequest, .download req.thumbnailPath]
        else
          postVideoFinish env req req.path req.thumbnailPath none none [.tokenRequest]

/-- A fully successful upload oracle (lease `//bucket`, asset id `123`,
completion channel `wss://ws`, storage location `https://store/obj`). -/
def envStub : UploadEnv :=
  { download := .error "unused"
    leaseResp := .ok ⟨200, "{}"⟩
    leaseDecode := .ok ⟨"//bucket", [("k", "v")], "123", "wss://ws"⟩
    openOk := true
    uploadResp := .ok ⟨201, "<resp/>"⟩
    xmlDecode := .ok "https://store/obj" }

/-- Like `envStub` but the success-status upload response decodes to an empty
`Location`. -/
def envEmptyLoc : UploadEnv := { envStub with xmlDecode := .ok "" }

/-- A remote unsupported-extension source whose download succeeds. -/
def envBmp : UploadEnv := { envStub with download := .ok "/tmp/redmedX.bmp" }

/-- Upload oracle: index 0 fails with a download error, index 1 succeeds. -/
def uplBad : Nat → Except Err String :=
  fun i => if i = 0 then .error (.download "boom") else .ok "asset1"

/-- Upload oracle: both gallery uploads succeed. -/
def uplGood : Nat → Except Err String :=
  fun i => if i = 0 then .ok "asset0" else .ok "asset1"

/-- A stub gallery submission endpoint. -/
def subStub : List GalleryItem → Except Err String := fun _ => .ok "t3_xyz"

/-- The `PostVideo` request of the staged-file-leak scenario: both the video
and the thumbnail are remote URLs. -/
def reqLeak : PostVideoRequest :=
  { kind := "video", nswf := false, path := "https://h/v.mp4", resubmit := true
    sendReplies := true, spoiler := false, subreddit := "s"
    thumbnailPath := "https://h/t.jpeg", title := "t" }

/-- Oracles for the leak scenario: the media download stages `/tmp/v.mp4`,
then the thumbnail download fails. -/
def envLeak : VideoEnv :=
  { token := .ok ()
    mediaDownload := .ok "/tmp/v.mp4"
    thumbDownload := .error "boom"
    envM := envStub
    envT := envStub
    submitResp := .ok ⟨200, ""⟩
    dial := .ok ()
    branch := .listener (.message ⟨"success", "https://x/r/s/comments/abc/t/"⟩) }

/-- Token oracle: the exchange answers 401 yet the body decodes to a token. -/
def env401 : TokenEnv :=
  { resp := .ok ⟨401, "body"⟩, decode := fun _ => .ok "tok" }

lemma get?_set_self {α : Type} (l : List α) (i : Nat) (a : α) (h : i < l.length) :
    (l.set i a)[i]? = some a := by
  induction l generalizing i with
  | nil => simp at h
  | cons x xs ih =>
    cases i with
    | zero => simp [List.set]
    | succ n => simpa [List.set] using ih n (by simpa using h)

lemma get?_set_other {α : Type} (l : List α) (i j : Nat) (a : α) (h : i ≠ j) :
    (l.set i a)[j]? = l[j]? := by
  induction l generalizing i j with
  | nil => rfl
  | cons x xs ih =>
    cases i with
    | zero =>
      cases j with
      | zero => exact absurd rfl h
      | succ m => simp [List.set]
    | succ n =>
      cases j with
      | zero => simp [List.set]
      | succ m => simpa [List.set] using ih n m (fun hnm => h (by rw [hnm]))

lemma galleryFold_length (upload : Nat → Except Err String) (order : List Nat)
    (st : List (Option GalleryItem) × Option Err) :
    ((order.foldl (galleryStep upload) st).1).length = st.1.length := by
  induction order generalizing st with
  | nil => rfl
  | cons k rest ih =>
    rw [List.foldl_cons, ih]
    unfold galleryStep
    cases upload k <;> simp

lemma galleryFold_err_stable (upload : Nat → Except Err String) (order : List Nat)
    (l : List (Option GalleryItem)) (e : Err) :
    ((order.foldl (galleryStep upload) (l, some e)).2) = some e := by
  induction order generalizing l with
  | nil => rfl
  | cons k rest ih =>
    rw [List.foldl_cons]
    unfold galleryStep
    cases upload k with
    | error f => simpa using ih l
    | ok v => simpa using ih (l.set k (some ⟨"", "", v⟩))

lemma galleryFold_err_of_ok (upload : Nat → Except Err String) (order : List Nat)
    (st : List (Option GalleryItem) × Option Err)
    (hok : ∀ i ∈ order, isOk (upload i) = true) :
    ((order.foldl (galleryStep upload) st).2) = st.2 := by
  induction order generalizing st with
  | nil => rfl
  | cons k rest ih =>
    rw [List.foldl_cons]
    have hk := hok k (by simp)
    cases hu : upload k with
    | error f => rw [hu] at hk; simp [isOk] at hk
    | ok v =>
      have hstep : galleryStep upload st k = (st.1.set k (some ⟨"", "", v⟩), st.2) := by
        simp [galleryStep, hu]
      rw [hstep, ih _ (fun i hi => hok i (by simp [hi]))]

lemma galleryFold_err_unique (upload : Nat → Except Err String) (order : List Nat)
    (l : List (Option GalleryItem)) (i : Nat) (e : Err)
    (hi : i ∈ order) (he : upload i = .error e)
    (hok : ∀ j ∈ order, j ≠ i → isOk (upload j) = true) :
    ((order.foldl (galleryStep upload) (l, none)).2) = some e := by
  induction order generalizing l with
  | nil => simp at hi
  | cons k rest ih =>
    rw [List.foldl_cons]
    by_cases hk : k = i
    · subst hk
      have hstep : galleryStep upload (l, none) k = (l, some e) := by
        simp [galleryStep, he]
      rw [hstep]
      exact galleryFold_err_stable upload rest l e
    · have hko := hok k (by simp) hk
      cases hu : upload k with
      | error f => rw [hu] at hko; simp [isOk] at hko
      | ok v =>
        have hstep : galleryStep upload (l, none) k = (l.set k (some ⟨"", "", v⟩), none) := by
          simp [galleryStep, hu]
        rw [hstep]
        have hi' : i ∈ rest := by
          rcases List.mem_cons.mp hi with h | h
          · exact absurd h.symm hk
          · exact h
        exact ih (l.set k (some ⟨"", "", v⟩)) hi'
          (fun j hj hji => hok j (List.mem_cons_of_mem _ hj) hji)

lemma galleryFold_get (upload : Nat → Except Err String) (order : List Nat)
    (st : List (Option GalleryItem) × Option Err) (j : Nat)
    (hok : ∀ i ∈ order, isOk (upload i) = true)
    (hlt : ∀ i ∈ order, i < st.1.length) :
    ((order.foldl (galleryStep upload) st).1)[j]? =
      if j ∈ order then some (some ⟨"", "", okVal (upload j)⟩) else st.1[j]? := by
  induction order generalizing st with
  | nil => simp
  | cons k rest ih =>
    rw [List.foldl_cons]
    have hk := hok k (by simp)
    cases hu : upload k with
    | error f => rw [hu] at hk; simp [isOk] at hk
    | ok v =>
      have hstep : galleryStep upload st k = (st.1.set k (some ⟨"", "", v⟩), st.2) := by
        simp [galleryStep, hu]
      rw [hstep,
        ih _ (fun i hi => hok i (by simp [hi]))
          (fun i hi => by simpa using hlt i (by simp [hi]))]
      by_cases hjr : j ∈ rest
      · simp [hjr]
      · by_cases hjk : j = k
        · subst hjk
          have hjlt : j < st.1.length := hlt j (by simp)
          rw [get?_set_self st.1 j _ hjlt]
          simp [hjr, hu, okVal]
        · rw [get?_set_other st.1 k j _ (fun h => hjk h.symm)]
          simp [hjr, hjk]

/-- C1: the identifier derivation on a completion redirect of the literal form
`https://x/r/s/comments/x1qxro/title/`: the monolithic `PostImage`/`PostVideo`
(src/redmed.go:188) produces `t3x1qxro` — the `t3` tag with NO underscore —
while `reddit.SubmitPost` (src/unnamed/part_000:216) produces `t3_x1qxro`, the
value the repository's own tests demand (src/redmed_test.go wants
`t3_x1qxro`). -/
theorem c1_identifier :
    postNameMonolithic "https://x/r/s/comments/x1qxro/title/" = some "t3x1qxro" ∧
    postNameSubmitPost "https://x/r/s/comments/x1qxro/title/" = some "t3_x1qxro" ∧
    postNameSubmitPost "https://www.reddit.com/r/subreddit/comments/x1qxro/title/" =
      some "t3_x1qxro" := by
  refine ⟨?_, ?_, ?_⟩ <;> rfl

/-- C3 (counterexample): the `reddit.waitForPostSuccess` classification
(src/unnamed/part_000:399) treats the message `{type: "pending", redirect: "r"}`
— whose type is not `failed` and whose redirect is non-empty — as a terminal
failure, not as terminal success as the claim states. -/
theorem c3_counterexample :
    classifyTypeNotSuccess ⟨"pending", "r"⟩ =
      .error (.wrap "waiting for media upload success" (.completionFailed "pending" "r")) ∧
    ("pending" : String) ≠ "failed" ∧ ("r" : String) ≠ "" := by
  refine ⟨rfl, by decide, by decide⟩

/-- C3 (amended): the two waiter snapshots implement different terminal
classifications.  In src/redmed.go:441 and src/unnamed/part_001:394, a
`failed` type or an empty redirect is terminal failure and any other message
is terminal success with the redirect.  In src/unnamed/part_000:399, any type
other than `success`, or an empty redirect, is terminal failure and only a
`success` type with a non-empty redirect is terminal success.  In both
variants every decoded message is terminal — no message continues the
listening loop from the caller's point of view. -/
theorem c3_classification_policies (m : WsMsg) :
    ((m.type = "failed" ∨ m.redirect = "") →
      classifyTypeFailed m =
        .error (.wrap "waiting for media upload success"
          (.completionFailed m.type m.redirect))) ∧
    (¬(m.type = "failed" ∨ m.redirect = "") → classifyTypeFailed m = .ok m.redirect) ∧
    ((¬ m.type = "success" ∨ m.redirect = "") →
      classifyTypeNotSuccess m =
        .error (.wrap "waiting for media upload success"
          (.completionFailed m.type m.redirect))) ∧
    ((m.type = "success" ∧ m.redirect ≠ "") → classifyTypeNotSuccess m = .ok m.redirect) := by
  refine ⟨fun h => ?_, fun h => ?_, fun h => ?_, fun h => ?_⟩
  · simp [classifyTypeFailed, h]
  · simp [classifyTypeFailed, h]
  · simp [classifyTypeNotSuccess, h]
  · simp [classifyTypeNotSuccess, h.1, h.2]

theorem c3_witness :
    classifyTypeFailed ⟨"pending", "https://x/r/s/comments/a/t/"⟩ =
      .ok "https://x/r/s/comments/a/t/" ∧
    classifyTypeNotSuccess ⟨"success", "r"⟩ = .ok "r" := by
  constructor
  · exact (c3_classification_policies ⟨"pending", "https://x/r/s/comments/a/t/"⟩).2.1
      (by decide)
  · exact (c3_classification_policies ⟨"success", "r"⟩).2.2.2 (by decide)

/-- C4 (counterexample): `uploadMedia` (src/redmed.go:549-564; the same tail as
`UploadAsset` in src/unnamed/part_001:172-192) on a 201-status upload response
whose XML decodes to an empty `Location` returns success with an empty storage
URL instead of an error. -/
theorem c4_counterexample :
    uploadMedia envEmptyLoc "a.png" =
      (.ok ⟨"123", "", "wss://ws"⟩,
        [.leaseRequest "a.png" "image/png", .binaryUpload "https://bucket"]) ∧
    envEmptyLoc.uploadResp = .ok ⟨201, "<resp/>"⟩ := by
  exact ⟨rfl, rfl⟩

/-- C4 (amended): the `reddit.UploadAsset` variant of src/unnamed/part_000
(lines 186-188) never succeeds with an empty storage URL — any successful
result of its post-staging body carries a non-empty location; the
src/redmed.go `uploadMedia` / src/unnamed/part_001 `UploadAsset` variants
perform no such check and can return success with an empty location. -/
theorem c4_empty_location (env : UploadEnv) (path : String) (a : Asset)
    (h : (uploadAssetBody env path).1 = .ok a) : a.location ≠ "" := by
  unfold uploadAssetBody at h
  cases hmt : mimeTypes (filepathExt (filepathBase path)) <;> rw [hmt] at h
  · simp at h
  · simp only at h
    unfold uploadAfterLease at h
    cases hdr : doRequest env.leaseResp <;> rw [hdr] at h
    · simp at h
    · cases hld : env.leaseDecode <;> rw [hld] at h
      · simp at h
      · cases ho : env.openOk <;> simp only [ho] at h
        · simp at h
        · simp only [if_true] at h
          cases hur : doRequest env.uploadResp <;> rw [hur] at h
          · simp at h
          · cases hx : env.xmlDecode <;> rw [hx] at h
            · simp at h
            · rename_i lease _ location
              by_cases hl : location = ""
              · simp [hl] at h
              · simp [hl] at h
                subst h
                exact hl

theorem c4_witness : ("https://store/obj" : String) ≠ "" :=
  c4_empty_location envStub "a.png" ⟨"123", "https://store/obj", "wss://ws"⟩ rfl

/-- C2: gallery orchestration (src/redmed.go:822-889).  For any completion
order of the concurrent uploads that is a permutation of the input indices:
if upload `i` fails and every other upload succeeds, `PostGallery` returns that
upload's error (wrapped) and performs no post-submission call; if all `n`
uploads succeed, the submission is called with an item sequence whose `i`-th
element carries the asset id produced for input path `i`, for every `i` —
independent of the completion order. -/
theorem c2_gallery_orchestration (upload : Nat → Except Err String) (n : Nat)
    (order : List Nat) (submit : List GalleryItem → Except Err String)
    (hperm : order.Perm (List.range n)) :
    (∀ i e, i < n → upload i = .error e →
      (∀ j, j < n → j ≠ i → isOk (upload j) = true) →
      PostGallery upload n order submit = (.error (.wrap "uploading asset" e), false)) ∧
    ((∀ i, i < n → isOk (upload i) = true) →
      ∃ items, PostGallery upload n order submit = (submit items, true) ∧
        items.length = n ∧
        ∀ i, i < n → items[i]? = some ⟨"", "", okVal (upload i)⟩) := by
  have hmem : ∀ i, i ∈ order ↔ i < n := by
    intro i
    rw [hperm.mem_iff, List.mem_range]
  constructor
  · intro i e hi he hok
    have herr : (galleryUploads upload n order).2 = some e := by
      unfold galleryUploads
      exact galleryFold_err_unique upload order _ i e ((hmem i).mpr hi) he
        (fun j hj hji => hok j ((hmem j).mp hj) hji)
    unfold PostGallery
    rw [herr]
  · intro hok
    have herr : (galleryUploads upload n order).2 = none := by
      unfold galleryUploads
      exact galleryFold_err_of_ok upload order _ (fun i hi => hok i ((hmem i).mp hi))
    refine ⟨(galleryUploads upload n order).1.map (fun o => o.getD ⟨"", "", ""⟩), ?_, ?_, ?_⟩
    · unfold PostGallery
      rw [herr]
    · rw [List.length_map]
      unfold galleryUploads
      rw [galleryFold_length]
      exact List.length_replicate n none
    · intro i hi
      have hget : ((galleryUploads upload n order).1)[i]? =
          some (some ⟨"", "", okVal (upload i)⟩) := by
        unfold galleryUploads
        rw [galleryFold_get upload order _ i (fun j hj => hok j ((hmem j).mp hj))
          (fun j hj => by
            rw [List.length_replicate]
            exact (hmem j).mp hj)]
        simp [(hmem i).mpr hi]
      rw [List.getElem?_map, hget]
      rfl

theorem c2_witness :
    PostGallery uplBad 2 [1, 0] subStub =
      (.error (.wrap "uploading asset" (.download "boom")), false) ∧
    (∃ items, PostGallery uplGood 2 [1, 0] subStub = (subStub items, true) ∧
      items.length = 2 ∧
      ∀ i, i < 2 → items[i]? = some ⟨"", "", okVal (uplGood i)⟩) := by
  constructor
  · exact (c2_gallery_orchestration uplBad 2 [1, 0] subStub (by decide)).1 0
      (.download "boom") (by decide) rfl (by decide)
  · exact (c2_gallery_orchestration uplGood 2 [1, 0] subStub (by decide)).2 (by decide)

/-- C5: when the lease issued no completion-channel address, the waiter (every
snapshot) returns the empty redirect with no error and no connection; the
identifier derivations then split that empty redirect into a single component
and index position `length - 3` out of bounds — a panic (`none`), not a typed
error.  In general the index is in bounds exactly when the split redirect has
at least three slash-separated components. -/
theorem c5_short_redirect_panics :
    (∀ classify dial branch, waitCore classify "" dial branch = (.ok "", [])) ∧
    postNameSubmitPost "" = none ∧
    postNameMonolithic "" = none ∧
    (∀ r, (postNameSubmitPost r).isSome ↔ 3 ≤ (goSplit r '/').length) ∧
    (∀ r, (postNameMonolithic r).isSome ↔ 3 ≤ (goSplit r '/').length) := by
  refine ⟨fun _ _ _ => rfl, rfl, rfl, fun r => ?_, fun r => ?_⟩
  · unfold postNameSubmitPost
    by_cases h : 3 ≤ (goSplit r '/').length <;> simp [h]
  · unfold postNameMonolithic
    by_cases h : 3 ≤ (goSplit r '/').length <;> simp [h]

/-- C9: every snapshot of `waitForPostSuccess` (src/redmed.go:398-400,
src/unnamed/part_000:361-363, src/unnamed/part_001:351-353) returns the empty
string and no error on an empty completion-channel address, with an empty
trace — no connection is dialled. -/
theorem c9_empty_url (classify : WsMsg → Except Err String) (dial : Except String Unit)
    (branch : WaitBranch) : waitCore classify "" dial branch = (.ok "", []) := rfl

/-- C10 (counterexample): a cancelled-context execution in which the waiter
does NOT return a cancellation error.  The listener observes the cancelled
context at the top of its loop (src/redmed.go:418-420) and returns without
sending; its `defer close(msgCh)` closes the channel, so both cases of the
caller's `select` (src/redmed.go:450-458) are ready and Go may pick the
receive case, which yields the zero `msg{value: "", err: nil}` — the waiter
returns `("", nil)`, no cancellation error, although the context was cancelled
before any terminal message arrived. -/
theorem c10_counterexample :
    waitCore classifyTypeFailed "wss://k" (.ok ()) .channelClosed =
      (.ok "", [.wsDial "wss://k", .wsClose]) ∧
    (waitCore classifyTypeFailed "wss://k" (.ok ()) .channelClosed).1 ≠
      .error .cancelled := by
  exact ⟨rfl, by decide⟩

/-- C10 (amended): under cancellation the caller's `select` has two possible
outcomes, in every waiter snapshot and under any message classification.  If
the `ctx.Done()` branch fires (src/redmed.go:450-452), the waiter returns the
cancellation error without consuming any listener outcome — no `WsRead`
appears in that branch.  But cancellation does not force that branch: if the
listener observes the cancelled context first and its deferred `close(msgCh)`
closes the channel, the receive case may be chosen and the waiter returns
`("", nil)` — no cancellation error.  On both branches the deferred
`ws.Close()` runs on the caller's exit path (the `wsClose` event closes the
trace). -/
theorem c10_select_branches (classify : WsMsg → Except Err String) (url : String)
    (h : url ≠ "") :
    waitCore classify url (.ok ()) .ctxDone =
      (.error .cancelled, [.wsDial url, .wsClose]) ∧
    waitCore classify url (.ok ()) .channelClosed =
      (.ok "", [.wsDial url, .wsClose]) := by
  constructor
  · unfold waitCore
    rw [if_neg h]
  · unfold waitCore
    rw [if_neg h]

theorem c10_witness :
    waitCore classifyTypeFailed "wss://j" (.ok ()) .ctxDone =
      (.error .cancelled, [.wsDial "wss://j", .wsClose]) ∧
    waitCore classifyTypeFailed "wss://j" (.ok ()) .channelClosed =
      (.ok "", [.wsDial "wss://j", .wsClose]) :=
  c10_select_branches classifyTypeFailed "wss://j" (by decide)

/-- C6 (counterexample): `reddit.UploadAsset` (src/unnamed/part_000:86-111)
downloads a remote source BEFORE the extension check, so a remote URL with the
unsupported extension `.bmp` triggers a download network call and only then
returns the unsupported-media error — the claim's "performs no network call"
fails. -/
theorem c6_counterexample :
    UploadAsset envBmp "https://host.com/image.bmp" =
      (.error (.unsupportedMedia ".bmp"),
        [.download "https://host.com/image.bmp", .removeFile "/tmp/redmedX.bmp"]) ∧
    Event.download "https://host.com/image.bmp" ∈
      (UploadAsset envBmp "https://host.com/image.bmp").2 := by
  exact ⟨rfl, by decide⟩

/-- C6 (amended): the extension/content-type mapping is exactly the claimed
table, and whenever the extension is supported the lease request declares
exactly the mapped content type (first event of the upload trace, in both the
`uploadMedia` and the `UploadAsset` variants).  For an unsupported extension,
`uploadMedia` (src/redmed.go:461-470) returns the unsupported-media error with
no network call at all; `reddit.UploadAsset` does the same only when the source
is NOT a remote URL — a remote source is downloaded (one network call) before
the extension check. -/
theorem c6_mimetypes :
    (mimeTypes ".png" = some "image/png" ∧ mimeTypes ".jpg" = some "image/jpeg" ∧
      mimeTypes ".jpeg" = some "image/jpeg" ∧ mimeTypes ".gif" = some "image/gif" ∧
      mimeTypes ".mp4" = some "video/mp4" ∧ mimeTypes ".mov" = some "video/quicktime") ∧
    (∀ env path mt, mimeTypes (filepathExt (filepathBase path)) = some mt →
      (uploadAssetBody env path).2.head? =
        some (.leaseRequest (filepathBase path) mt) ∧
      (uploadMedia env path).2.head? =
        some (.leaseRequest (filepathBase path) mt)) ∧
    (∀ env path, mimeTypes (filepathExt (filepathBase path)) = none →
      uploadMedia env path =
        (.error (.unsupportedMedia (filepathExt (filepathBase path))), []) ∧
      (isValidURL path = false →
        UploadAsset env path =
          (.error (.unsupportedMedia (filepathExt (filepathBase path))), []))) := by
  refine ⟨⟨rfl, rfl, rfl, rfl, rfl, rfl⟩, ?_, ?_⟩
  · intro env path mt hmt
    constructor
    · unfold uploadAssetBody
      rw [hmt]
      rfl
    · unfold uploadMedia
      rw [hmt]
      rfl
  · intro env path hmt
    constructor
    · unfold uploadMedia
      rw [hmt]
    · intro hv
      unfold UploadAsset
      rw [if_neg (by simp [hv])]
      unfold uploadAssetBody
      rw [hmt]

theorem c6_witness :
    (uploadAssetBody envStub "dir/a.png").2.head? =
      some (.leaseRequest "a.png" "image/png") ∧
    uploadMedia envStub "a.bmp" = (.error (.unsupportedMedia ".bmp"), []) := by
  constructor
  · exact (c6_mimetypes.2.1 envStub "dir/a.png" "image/png" rfl).1
  · exact (c6_mimetypes.2.2 envStub "a.bmp" rfl).1

/-- C7 (counterexample): in the monolithic `PostVideo` (src/redmed.go:203-290)
the deferred removals are registered only at lines 240-246, after BOTH
downloads; when the media download has staged `/tmp/v.mp4` and the thumbnail
download then fails (line 233-236), the operation returns with the staged
media file never removed. -/
theorem c7_counterexample :
    PostVideo envLeak reqLeak =
      (.error (.wrap "downloading https://h/v.mp4" (.download "boom")),
        [.tokenRequest, .download "https://h/v.mp4", .download "https://h/t.jpeg"]) ∧
    Event.removeFile "/tmp/v.mp4" ∉ (PostVideo envLeak reqLeak).2 := by
  exact ⟨rfl, by decide⟩

/-- C7 (amended): `reddit.UploadAsset` (src/unnamed/part_000:86-101) removes
its staged file on every exit path — the `defer os.Remove` directly follows the
successful download.  In the monolithic `PostVideo`, a staged media file is
removed on every exit path EXCEPT when the thumbnail download fails after the
media was staged (the counterexample path); a staged thumbnail file — which is
staged last, immediately before the defers — is removed on every exit path. -/
theorem c7_cleanup :
    (∀ env path tmp, isValidURL path = true → env.download = .ok tmp →
      Event.removeFile tmp ∈ (UploadAsset env path).2) ∧
    (∀ env req tmpM, (req.kind = "video" ∨ req.kind = "videogif") →
      req.thumbnailPath ≠ "" → env.token = .ok () →
      isValidURL req.path = true → env.mediaDownload = .ok tmpM →
      (isValidURL req.thumbnailPath = true → ∃ t, env.thumbDownload = .ok t) →
      Event.removeFile tmpM ∈ (PostVideo env req).2) ∧
    (∀ env req tmpT, (req.kind = "video" ∨ req.kind = "videogif") →
      req.thumbnailPath ≠ "" → env.token = .ok () →
      isValidURL req.thumbnailPath = true → env.thumbDownload = .ok tmpT →
      (isValidURL req.path = true → ∃ t, env.mediaDownload = .ok t) →
      Event.removeFile tmpT ∈ (PostVideo env req).2) := by
  refine ⟨?_, ?_, ?_⟩
  · intro env path tmp hv hd
    unfold UploadAsset
    rw [if_pos (by simp [hv]), hd]
    simp
  · intro env req tmpM hk ht htok hvp hdm hth
    have hk' : ¬(req.kind ≠ "video" ∧ req.kind ≠ "videogif") := by
      rcases hk with h | h <;> simp [h]
    unfold PostVideo
    rw [if_neg hk', if_neg ht, htok]
    simp only [hvp, if_true]
    rw [hdm]
    simp only
    cases hvt : isValidURL req.thumbnailPath with
    | true =>
      obtain ⟨t, htd⟩ := hth hvt
      simp only [if_true]
      rw [htd]
      simp [postVideoFinish, postVideoCleanup]
    | false =>
      simp [postVideoFinish, postVideoCleanup]
  · intro env req tmpT hk ht htok hvt hdt hmedia
    have hk' : ¬(req.kind ≠ "video" ∧ req.kind ≠ "videogif") := by
      rcases hk with h | h <;> simp [h]
    unfold PostVideo
    rw [if_neg hk', if_neg ht, htok]
    simp only
    cases hvp : isValidURL req.path with
    | true =>
      obtain ⟨t, hmd⟩ := hmedia hvp
      simp only [if_true]
      rw [hmd]
      simp only [hvt, if_true]
      rw [hdt]
      simp [postVideoFinish, postVideoCleanup]
    | false =>
      simp only [if_false, hvt, if_true]
      rw [hdt]
      simp [postVideoFinish, postVideoCleanup]

theorem c7_witness :
    Event.removeFile "/tmp/redmedX.bmp" ∈
      (UploadAsset envBmp "https://host.com/image.bmp").2 :=
  c7_cleanup.1 envBmp "https://host.com/image.bmp" "/tmp/redmedX.bmp" rfl rfl

/-- C8 (counterexample): `setToken` (src/redmed.go:79-116,
src/unnamed/part_000:249-286) never inspects the response status: a 401
response whose body decodes to a token is accepted, the token is stored and no
error is returned — contradicting the claim that every non-2xx exchange fails
and no token from a non-2xx response is stored. -/
theorem c8_counterexample :
    setToken env401 = .ok "tok" ∧ env401.resp = .ok ⟨401, "body"⟩ ∧
    (401 : Nat) ≠ 200 ∧ (401 : Nat) ≠ 201 := by
  exact ⟨rfl, rfl, by decide, by decide⟩

/-- C8 (amended): token acquisition fails exactly when the HTTP exchange
itself fails, the body does not decode, or the decoded token is empty.  The
response status is never inspected: any response whose body decodes to a
non-empty token is accepted and the token stored, and the result depends on
the response only through its body. -/
theorem c8_token_status_ignored :
    (∀ r d tok, d r.body = .ok tok → tok ≠ "" →
      setToken ⟨.ok r, d⟩ = .ok tok) ∧
    (∀ r r' d, r.body = r'.body → setToken ⟨.ok r, d⟩ = setToken ⟨.ok r', d⟩) ∧
    (∀ env tok, setToken env = .ok tok →
      ∃ r, env.resp = .ok r ∧ env.decode r.body = .ok tok ∧ tok ≠ "") := by
  refine ⟨?_, ?_, ?_⟩
  · intro r d tok hd htok
    simp [setToken, hd, htok]
  · intro r r' d hbody
    simp only [setToken, hbody]
  · intro env tok h
    unfold setToken at h
    cases hr : env.resp with
    | error m =>
      rw [hr] at h
      simp at h
    | ok r =>
      rw [hr] at h
      dsimp only at h
      cases hd : env.decode r.body with
      | error m =>
        rw [hd] at h
        simp at h
      | ok t =>
        rw [hd] at h
        dsimp only at h
        by_cases ht : t = ""
        · simp [ht] at h
        · rw [if_neg ht] at h
          have htt : t = tok := by
            simpa using h
          subst htt
          exact ⟨r, rfl, hd, ht⟩

theorem c8_witness :
    setToken ⟨.ok ⟨401, "body2"⟩, fun _ => .ok "tok2"⟩ = .ok "tok2" :=
  c8_token_status_ignored.1 ⟨401, "body2"⟩ (fun _ => .ok "tok2") "tok2" rfl (by decide)

end Redmed
